import Mathlib

/-!
Verification of `skills/super-manager/shared/configuration_paths.py`.

The module is embedded shallowly: the process environment is a partial map
from variable names to values (`os.environ.get`), the filesystem is
abstracted as its existence oracle (`os.path.exists`), and `os.path.join`
is modelled with POSIX semantics (separator `/`), which is the semantics
the module's own literals use. Every module-level constant of the Python
file becomes a Lean function of the environment, keeping its source name.
-/

namespace ConfigurationPaths

/-- The process environment: `env name = some v` when the variable is set to
`v`, `none` when unset (the behaviour of `os.environ.get(name)`). -/
abbrev Env : Type := String → Option String

/-- The filesystem abstracted as its existence check: `fs p` is the value of
`os.path.exists(p)`. -/
abbrev Fs : Type := String → Bool

/-- `os.environ.get(name, default)`. -/
def envGet (env : Env) (name default : String) : String :=
  (env name).getD default

/-- Two-argument `posixpath.join`: if `b` starts with the separator the
result is `b`; if `a` is empty or ends with the separator the result is
`a ++ b`; otherwise `a ++ "/" ++ b`. -/
def os_path_join2 (a b : String) : String :=
  if b.data.head? = some '/' then b
  else if a = "" ∨ a.data.getLast? = some '/' then a ++ b
  else a ++ "/" ++ b

/-- Variadic `os.path.join(a, *rest)`: the two-argument join folded from the
left, as `posixpath.join` does. -/
def os_path_join (a : String) (rest : List String) : String :=
  rest.foldl os_path_join2 a

/-- Line 10: `HOME = os.environ.get("HOME") or os.environ.get("USERPROFILE", "")`.
Python `or` takes the second operand when the first is `None` or empty. -/
def HOME (env : Env) : String :=
  match env "HOME" with
  | some s => if s = "" then envGet env "USERPROFILE" "" else s
  | none => envGet env "USERPROFILE" ""

/-- Line 11: `CLAUDE_DIR = os.path.join(HOME, ".claude")`. -/
def CLAUDE_DIR (env : Env) : String :=
  os_path_join2 (HOME env) ".claude"

/-- Line 12: `SUPER_MANAGER_DIR = os.path.join(CLAUDE_DIR, "super-manager")`. -/
def SUPER_MANAGER_DIR (env : Env) : String :=
  os_path_join2 (CLAUDE_DIR env) "super-manager"

/-- Line 15: `REGISTRIES_DIR = os.path.join(SUPER_MANAGER_DIR, "registries")`. -/
def REGISTRIES_DIR (env : Env) : String :=
  os_path_join2 (SUPER_MANAGER_DIR env) "registries"

/-- Line 16: `INSTRUCTIONS_BASE = os.path.join(CLAUDE_DIR, "instructions")`. -/
def INSTRUCTIONS_BASE (env : Env) : String :=
  os_path_join2 (CLAUDE_DIR env) "instructions"

/-- Line 17: `INSTRUCTIONS_DIR = INSTRUCTIONS_BASE`. -/
def INSTRUCTIONS_DIR (env : Env) : String :=
  INSTRUCTIONS_BASE env

/-- Line 18: `INSTRUCTIONS_BACKUP_DIR = os.path.join(INSTRUCTIONS_BASE, "backups")`. -/
def INSTRUCTIONS_BACKUP_DIR (env : Env) : String :=
  os_path_join2 (INSTRUCTIONS_BASE env) "backups"

/-- Line 19: `INSTRUCTIONS_REPOS_DIR = os.path.join(INSTRUCTIONS_BASE, "repos")`. -/
def INSTRUCTIONS_REPOS_DIR (env : Env) : String :=
  os_path_join2 (INSTRUCTIONS_BASE env) "repos"

/-- Line 20: `INSTRUCTIONS_REPOS_CONFIG = os.path.join(INSTRUCTIONS_BASE, "repos.json")`. -/
def INSTRUCTIONS_REPOS_CONFIG (env : Env) : String :=
  os_path_join2 (INSTRUCTIONS_BASE env) "repos.json"

/-- Line 21: `LOGS_DIR = os.path.join(SUPER_MANAGER_DIR, "logs")`. -/
def LOGS_DIR (env : Env) : String :=
  os_path_join2 (SUPER_MANAGER_DIR env) "logs"

/-- Line 22: `REPORTS_DIR = os.path.join(SUPER_MANAGER_DIR, "reports")`. -/
def REPORTS_DIR (env : Env) : String :=
  os_path_join2 (SUPER_MANAGER_DIR env) "reports"

/-- Line 23: `ARCHIVE_DIR = os.path.join(SUPER_MANAGER_DIR, "archive")`. -/
def ARCHIVE_DIR (env : Env) : String :=
  os_path_join2 (SUPER_MANAGER_DIR env) "archive"

/-- Line 24: `TESTS_DIR = os.path.join(SUPER_MANAGER_DIR, "tests")`. -/
def TESTS_DIR (env : Env) : String :=
  os_path_join2 (SUPER_MANAGER_DIR env) "tests"

/-- Line 25: `CREDENTIALS_DIR = os.path.join(SUPER_MANAGER_DIR, "credentials")`. -/
def CREDENTIALS_DIR (env : Env) : String :=
  os_path_join2 (SUPER_MANAGER_DIR env) "credentials"

/-- Line 28: `CONFIG_DIR = os.path.join(SUPER_MANAGER_DIR, "config")`. -/
def CONFIG_DIR (env : Env) : String :=
  os_path_join2 (SUPER_MANAGER_DIR env) "config"

/-- Line 29: `CONFIG_REPOS_DIR = os.path.join(CONFIG_DIR, "repos")`. -/
def CONFIG_REPOS_DIR (env : Env) : String :=
  os_path_join2 (CONFIG_DIR env) "repos"

/-- Line 30: `CONFIG_BACKUPS_DIR = os.path.join(CONFIG_DIR, "backups")`. -/
def CONFIG_BACKUPS_DIR (env : Env) : String :=
  os_path_join2 (CONFIG_DIR env) "backups"

/-- Line 33: `CONFIG_REPOS_JSON = os.path.join(CONFIG_DIR, "repos.json")`. -/
def CONFIG_REPOS_JSON (env : Env) : String :=
  os_path_join2 (CONFIG_DIR env) "repos.json"

/-- Line 34: `CONFIG_INSTALLED_JSON = os.path.join(CONFIG_DIR, "installed.json")`. -/
def CONFIG_INSTALLED_JSON (env : Env) : String :=
  os_path_join2 (CONFIG_DIR env) "installed.json"

/-- Line 35: `CONFIG_PENDING_JSON = os.path.join(CONFIG_DIR, "pending.json")`. -/
def CONFIG_PENDING_JSON (env : Env) : String :=
  os_path_join2 (CONFIG_DIR env) "pending.json"

/-- Line 38: the one hardcoded bootstrap constant. -/
def DEFAULT_CONFIG_REPO : String := "grobomo/claude-code-defaults"

/-- Line 41: `HOOK_REGISTRY = os.path.join(REGISTRIES_DIR, "hook-registry.json")`. -/
def HOOK_REGISTRY (env : Env) : String :=
  os_path_join2 (REGISTRIES_DIR env) "hook-registry.json"

/-- Line 42: `SKILL_REGISTRY = os.path.join(REGISTRIES_DIR, "skill-registry.json")`. -/
def SKILL_REGISTRY (env : Env) : String :=
  os_path_join2 (REGISTRIES_DIR env) "skill-registry.json"

/-- Line 43: `CONFIG_HASH_FILE = os.path.join(REGISTRIES_DIR, "last-known-config-hash.txt")`. -/
def CONFIG_HASH_FILE (env : Env) : String :=
  os_path_join2 (REGISTRIES_DIR env) "last-known-config-hash.txt"

/-- Line 44: `CREDENTIAL_REGISTRY = os.path.join(CREDENTIALS_DIR, "credential-registry.json")`. -/
def CREDENTIAL_REGISTRY (env : Env) : String :=
  os_path_join2 (CREDENTIALS_DIR env) "credential-registry.json"

/-- Line 47: `CONFIG_REPORT = os.path.join(REPORTS_DIR, "config-report.md")`. -/
def CONFIG_REPORT (env : Env) : String :=
  os_path_join2 (REPORTS_DIR env) "config-report.md"

/-- Line 50: `SETTINGS_JSON = os.path.join(CLAUDE_DIR, "settings.json")`. -/
def SETTINGS_JSON (env : Env) : String :=
  os_path_join2 (CLAUDE_DIR env) "settings.json"

/-- Line 53: `HOOKS_DIR = os.path.join(CLAUDE_DIR, "hooks")`. -/
def HOOKS_DIR (env : Env) : String :=
  os_path_join2 (CLAUDE_DIR env) "hooks"

/-- Line 56: `GLOBAL_SKILLS_DIR = os.path.join(CLAUDE_DIR, "skills")`. -/
def GLOBAL_SKILLS_DIR (env : Env) : String :=
  os_path_join2 (CLAUDE_DIR env) "skills"

/-- Lines 59 to 64: the raw candidate list (env override, home location,
registry fallback) filtered by Python truthiness, which keeps exactly the
non-empty strings. -/
def MCP_SERVERS_YAML_PATHS (env : Env) : List String :=
  ([envGet env "MCP_SERVERS_YAML" "",
    os_path_join (HOME env) ["mcp", "mcp-manager", "servers.yaml"],
    os_path_join2 (REGISTRIES_DIR env) "servers.yaml"]).filter (fun p => p != "")

/-- Line 67: `SKILL_MGR_CLI = os.path.join(GLOBAL_SKILLS_DIR, "skill-marketplace", "cli", "skill-mgr")`. -/
def SKILL_MGR_CLI (env : Env) : String :=
  os_path_join (GLOBAL_SKILLS_DIR env) ["skill-marketplace", "cli", "skill-mgr"]

/-- Lines 70 to 74: the valid hook event names. -/
def VALID_HOOK_EVENTS : List String :=
  ["SessionStart", "SessionEnd", "UserPromptSubmit",
   "PreToolUse", "PostToolUse", "PreCompact",
   "Stop", "SubAgentSop", "PermissionRequest"]

/-- Lines 76 to 81, the loop body of `find_servers_yaml`: return the first
path of the list that exists, else `None`. -/
def find_first_existing (fs : Fs) : List String → Option String
  | [] => none
  | p :: rest => if fs p then some p else find_first_existing fs rest

/-- Lines 76 to 81: `find_servers_yaml` iterates `MCP_SERVERS_YAML_PATHS`. -/
def find_servers_yaml (env : Env) (fs : Fs) : Option String :=
  find_first_existing fs (MCP_SERVERS_YAML_PATHS env)

/-- Line 86: `_MCP_DIR = os.environ.get("MCP_DIR", os.path.join(HOME, "mcp"))`. -/
def MCP_DIR_resolved (env : Env) : String :=
  (env "MCP_DIR").getD (os_path_join2 (HOME env) "mcp")

/-- Lines 87 to 91: `KNOWN_ENV_FILES` ships empty. -/
def KNOWN_ENV_FILES : List (String × String) := []

/-- Lines 94 to 96: the secret-indicating substrings, stored verbatim. -/
def SECRET_PATTERNS : List String :=
  ["TOKEN", "KEY", "SECRET", "PASSWORD", "PASS", "AUTH"]

/-- All module-level path constants derived from the home directory, in
source order. -/
def derived_path_list (env : Env) : List String :=
  [CLAUDE_DIR env, SUPER_MANAGER_DIR env, REGISTRIES_DIR env,
   INSTRUCTIONS_BASE env, INSTRUCTIONS_DIR env, INSTRUCTIONS_BACKUP_DIR env,
   INSTRUCTIONS_REPOS_DIR env, INSTRUCTIONS_REPOS_CONFIG env, LOGS_DIR env,
   REPORTS_DIR env, ARCHIVE_DIR env, TESTS_DIR env, CREDENTIALS_DIR env,
   CONFIG_DIR env, CONFIG_REPOS_DIR env, CONFIG_BACKUPS_DIR env,
   CONFIG_REPOS_JSON env, CONFIG_INSTALLED_JSON env, CONFIG_PENDING_JSON env,
   HOOK_REGISTRY env, SKILL_REGISTRY env, CONFIG_HASH_FILE env,
   CREDENTIAL_REGISTRY env, CONFIG_REPORT env, SETTINGS_JSON env,
   HOOKS_DIR env, GLOBAL_SKILLS_DIR env, SKILL_MGR_CLI env]

/-- The fixed suffix each entry of `derived_path_list` carries after a
non-empty home directory. -/
def derived_path_suffixes : List String :=
  ["/.claude", "/.claude/super-manager", "/.claude/super-manager/registries",
   "/.claude/instructions", "/.claude/instructions", "/.claude/instructions/backups",
   "/.claude/instructions/repos", "/.claude/instructions/repos.json",
   "/.claude/super-manager/logs", "/.claude/super-manager/reports",
   "/.claude/super-manager/archive", "/.claude/super-manager/tests",
   "/.claude/super-manager/credentials", "/.claude/super-manager/config",
   "/.claude/super-manager/config/repos", "/.claude/super-manager/config/backups",
   "/.claude/super-manager/config/repos.json",
   "/.claude/super-manager/config/installed.json",
   "/.claude/super-manager/config/pending.json",
   "/.claude/super-manager/registries/hook-registry.json",
   "/.claude/super-manager/registries/skill-registry.json",
   "/.claude/super-manager/registries/last-known-config-hash.txt",
   "/.claude/super-manager/credentials/credential-registry.json",
   "/.claude/super-manager/reports/config-report.md",
   "/.claude/settings.json", "/.claude/hooks", "/.claude/skills",
   "/.claude/skills/skill-marketplace/cli/skill-mgr"]

/-- What each entry of `derived_path_list` becomes when the base directory
resolves to the empty string: the suffix alone, with no leading separator. -/
def derived_path_suffixes_relative : List String :=
  [".claude", ".claude/super-manager", ".claude/super-manager/registries",
   ".claude/instructions", ".claude/instructions", ".claude/instructions/backups",
   ".claude/instructions/repos", ".claude/instructions/repos.json",
   ".claude/super-manager/logs", ".claude/super-manager/reports",
   ".claude/super-manager/archive", ".claude/super-manager/tests",
   ".claude/super-manager/credentials", ".claude/super-manager/config",
   ".claude/super-manager/config/repos", ".claude/super-manager/config/backups",
   ".claude/super-manager/config/repos.json",
   ".claude/super-manager/config/installed.json",
   ".claude/super-manager/config/pending.json",
   ".claude/super-manager/registries/hook-registry.json",
   ".claude/super-manager/registries/skill-registry.json",
   ".claude/super-manager/registries/last-known-config-hash.txt",
   ".claude/super-manager/credentials/credential-registry.json",
   ".claude/super-manager/reports/config-report.md",
   ".claude/settings.json", ".claude/hooks", ".claude/skills",
   ".claude/skills/skill-marketplace/cli/skill-mgr"]

/-- Every constant the module computes at import time, as one list, given an
environment and a filesystem oracle. The Python module body never consults
the filesystem, so the oracle argument is unused by construction. -/
def module_constants (env : Env) (_fs : Fs) : List String :=
  HOME env :: DEFAULT_CONFIG_REPO :: MCP_DIR_resolved env ::
    (derived_path_list env ++ MCP_SERVERS_YAML_PATHS env ++
     VALID_HOOK_EVENTS ++ SECRET_PATTERNS ++ KNOWN_ENV_FILES.map Prod.snd)

/-- An environment with only the home variable set. -/
def env_home (h : String) : Env :=
  fun n => if n = "HOME" then some h else none

/-- The empty environment: no variable set at all. -/
def envNone : Env :=
  fun _ => none

/-- An environment where the primary home variable is set to the empty
string and the fallback carries a value. -/
def env_empty_primary : Env :=
  fun n => if n = "HOME" then some "" else if n = "USERPROFILE" then some "/x" else none

/-- A filesystem on which exactly the path "b" exists. -/
def fs_only_b : Fs :=
  fun s => s == "b"

/-- A filesystem on which no path exists. -/
def fs_nothing : Fs :=
  fun _ => false

theorem find_first_existing_eq_find (fs : Fs) (l : List String) :
    find_first_existing fs l = l.find? fs := by
  induction l with
  | nil => rfl
  | cons p rest ih =>
    by_cases h : fs p = true
    · simp [find_first_existing, List.find?, h]
    · simp only [Bool.not_eq_true] at h
      simp [find_first_existing, List.find?, h, ih]

theorem find_first_existing_none (fs : Fs) (l : List String)
    (h : ∀ p ∈ l, fs p = false) : find_first_existing fs l = none := by
  induction l with
  | nil => rfl
  | cons p rest ih =>
    have hp : fs p = false := h p (List.mem_cons_self p rest)
    simp only [find_first_existing, hp, Bool.false_eq_true, if_false]
    exact ih (fun q hq => h q (List.mem_cons_of_mem p hq))

/-- C1: `find_servers_yaml` returns the first candidate of the search list
that exists, unmodified: it agrees with `List.find?` over the search list,
and over any three candidates of which the first does not exist and the
second does, the loop returns the second candidate itself. -/
theorem find_servers_yaml_returns_first_existing :
    (∀ (env : Env) (fs : Fs),
        find_servers_yaml env fs = (MCP_SERVERS_YAML_PATHS env).find? fs) ∧
    (∀ (fs : Fs) (a b c : String), fs a = false → fs b = true →
        find_first_existing fs [a, b, c] = some b) := by
  constructor
  · intro env fs
    exact find_first_existing_eq_find fs (MCP_SERVERS_YAML_PATHS env)
  · intro fs a b c ha hb
    simp [find_first_existing, ha, hb]

/-- C1 witness: on the concrete three-candidate list where only the second
path exists, the loop returns the second path. -/
theorem find_servers_yaml_returns_first_existing_witness :
    fs_only_b "a" = false ∧ fs_only_b "b" = true ∧
      find_first_existing fs_only_b ["a", "b", "c"] = some "b" :=
  ⟨by decide, by decide,
    find_servers_yaml_returns_first_existing.2 fs_only_b "a" "b" "c"
      (by decide) (by decide)⟩

/-- C2: when no candidate exists, `find_servers_yaml` returns the `None`
sentinel (and, being a total function, cannot raise); likewise the loop on
any candidate list with no existing entry. -/
theorem find_servers_yaml_none_when_absent :
    (∀ (env : Env) (fs : Fs),
        (∀ p ∈ MCP_SERVERS_YAML_PATHS env, fs p = false) →
        find_servers_yaml env fs = none) ∧
    (∀ (fs : Fs) (l : List String), (∀ p ∈ l, fs p = false) →
        find_first_existing fs l = none) := by
  constructor
  · intro env fs h
    exact find_first_existing_none fs (MCP_SERVERS_YAML_PATHS env) h
  · intro fs l h
    exact find_first_existing_none fs l h

/-- C2 witness: with nothing on the filesystem, the concrete search of the
empty environment returns the sentinel. -/
theorem find_servers_yaml_none_when_absent_witness :
    find_servers_yaml envNone fs_nothing = none :=
  find_servers_yaml_none_when_absent.1 envNone fs_nothing (fun _ _ => rfl)

theorem string_data_ne_nil (s : String) (h : s ≠ "") : s.data ≠ [] := by
  intro hd
  exact h (String.ext (by rw [hd]))

theorem string_append_ne_empty (a b : String) (hb : b ≠ "") : a ++ b ≠ "" := by
  intro hc
  have hdata := congrArg String.data hc
  rw [String.data_append a b] at hdata
  exact string_data_ne_nil b hb (List.append_eq_nil.mp hdata).2

theorem string_empty_append (s : String) : "" ++ s = s := by
  apply String.ext
  rw [String.data_append "" s]
  rfl

theorem string_getLast_append (a b : String) (hb : b ≠ "") :
    (a ++ b).data.getLast? = b.data.getLast? := by
  rw [String.data_append a b]
  exact List.getLast?_append_of_ne_nil _ (string_data_ne_nil b hb)

theorem os_path_join2_rel (a b : String) (ha0 : a ≠ "")
    (ha : a.data.getLast? ≠ some '/') (hb : b.data.head? ≠ some '/') :
    os_path_join2 a b = a ++ "/" ++ b := by
  unfold os_path_join2
  rw [if_neg hb]
  rw [if_neg (not_or.mpr ⟨ha0, ha⟩)]

theorem os_path_join2_home (h b s : String) (h0 : h ≠ "")
    (h1 : h.data.getLast? ≠ some '/') (hb : b.data.head? ≠ some '/')
    (hs : "/" ++ b = s) : os_path_join2 h b = h ++ s := by
  rw [os_path_join2_rel h b h0 h1 hb, String.append_assoc, hs]

theorem os_path_join2_suffix (h suf b s : String) (h0 : suf ≠ "")
    (h1 : suf.data.getLast? ≠ some '/') (hb : b.data.head? ≠ some '/')
    (hs : suf ++ ("/" ++ b) = s) : os_path_join2 (h ++ suf) b = h ++ s := by
  rw [os_path_join2_rel (h ++ suf) b (string_append_ne_empty h suf h0)
        (by rw [string_getLast_append h suf h0]; exact h1) hb,
      String.append_assoc, String.append_assoc, hs]

theorem os_path_join2_ne_empty (a b : String) (hb : b ≠ "") :
    os_path_join2 a b ≠ "" := by
  unfold os_path_join2
  by_cases habs : b.data.head? = some '/'
  · rw [if_pos habs]; exact hb
  · rw [if_neg habs]
    by_cases hcase : a = "" ∨ a.data.getLast? = some '/'
    · rw [if_pos hcase]; exact string_append_ne_empty a b hb
    · rw [if_neg hcase]; exact string_append_ne_empty (a ++ "/") b hb

theorem mcp_home_candidate_ne_empty (env : Env) :
    os_path_join (HOME env) ["mcp", "mcp-manager", "servers.yaml"] ≠ "" := by
  unfold os_path_join
  simp only [List.foldl]
  exact os_path_join2_ne_empty _ _ (by decide)

theorem mcp_registry_candidate_ne_empty (env : Env) :
    os_path_join2 (REGISTRIES_DIR env) "servers.yaml" ≠ "" :=
  os_path_join2_ne_empty _ _ (by decide)

theorem mcp_paths_eq (env : Env) :
    MCP_SERVERS_YAML_PATHS env =
      (if envGet env "MCP_SERVERS_YAML" "" = "" then []
       else [envGet env "MCP_SERVERS_YAML" ""]) ++
      [os_path_join (HOME env) ["mcp", "mcp-manager", "servers.yaml"],
       os_path_join2 (REGISTRIES_DIR env) "servers.yaml"] := by
  have h1 := mcp_home_candidate_ne_empty env
  have h2 := mcp_registry_candidate_ne_empty env
  by_cases h0 : envGet env "MCP_SERVERS_YAML" "" = ""
  · simp [MCP_SERVERS_YAML_PATHS, List.filter_cons, h0, h1, h2]
  · simp [MCP_SERVERS_YAML_PATHS, List.filter_cons, h0, h1, h2]

/-- C3: the YAML search list is the override (when set and non-empty)
followed by the home location and the registry fallback, in that order,
with empty entries dropped and order preserved; with no override set it is
exactly the two-element list. -/
theorem mcp_servers_yaml_paths_construction :
    (∀ env : Env, MCP_SERVERS_YAML_PATHS env =
        (if envGet env "MCP_SERVERS_YAML" "" = "" then []
         else [envGet env "MCP_SERVERS_YAML" ""]) ++
        [os_path_join (HOME env) ["mcp", "mcp-manager", "servers.yaml"],
         os_path_join2 (REGISTRIES_DIR env) "servers.yaml"]) ∧
    (∀ env : Env, env "MCP_SERVERS_YAML" = none →
        MCP_SERVERS_YAML_PATHS env =
          [os_path_join (HOME env) ["mcp", "mcp-manager", "servers.yaml"],
           os_path_join2 (REGISTRIES_DIR env) "servers.yaml"]) := by
  constructor
  · exact mcp_paths_eq
  · intro env h
    have h0 : envGet env "MCP_SERVERS_YAML" "" = "" := by
      unfold envGet; rw [h]; rfl
    rw [mcp_paths_eq env, if_pos h0, List.nil_append]

/-- C3 witness: in the empty environment the search list is exactly the two
non-override candidates in order. -/
theorem mcp_servers_yaml_paths_construction_witness :
    MCP_SERVERS_YAML_PATHS envNone =
      [os_path_join (HOME envNone) ["mcp", "mcp-manager", "servers.yaml"],
       os_path_join2 (REGISTRIES_DIR envNone) "servers.yaml"] :=
  mcp_servers_yaml_paths_construction.2 envNone rfl

/-- C10: in every environment the filtered search list still holds both
non-override candidates (their strings are never empty), so it has at least
two entries and is never empty. -/
theorem mcp_servers_yaml_paths_never_empty (env : Env) :
    os_path_join (HOME env) ["mcp", "mcp-manager", "servers.yaml"] ∈
        MCP_SERVERS_YAML_PATHS env ∧
      os_path_join2 (REGISTRIES_DIR env) "servers.yaml" ∈
        MCP_SERVERS_YAML_PATHS env ∧
      2 ≤ (MCP_SERVERS_YAML_PATHS env).length ∧
      MCP_SERVERS_YAML_PATHS env ≠ [] := by
  rw [mcp_paths_eq env]
  by_cases h0 : envGet env "MCP_SERVERS_YAML" "" = ""
  · rw [if_pos h0]
    refine ⟨by simp, by simp, by simp, by simp⟩
  · rw [if_neg h0]
    refine ⟨by simp, by simp, by simp, by simp⟩

/-- C7: the hook-event enumeration has exactly 9 entries, each non-empty,
with no two equal. -/
theorem valid_hook_events_enumeration :
    VALID_HOOK_EVENTS.length = 9 ∧ (∀ e ∈ VALID_HOOK_EVENTS, e ≠ "") ∧
      VALID_HOOK_EVENTS.Nodup := by
  decide

/-- C8: the secret patterns are stored as case-sensitive literals: the
uppercase token is a member, its lowercase form is not. -/
theorem secret_patterns_case_sensitive :
    "TOKEN" ∈ SECRET_PATTERNS ∧ "token" ∉ SECRET_PATTERNS := by
  decide

theorem home_of_set (env : Env) (h : String) (hset : env "HOME" = some h)
    (h0 : h ≠ "") : HOME env = h := by
  unfold HOME
  rw [hset]
  exact if_neg h0

theorem CLAUDE_DIR_eq (env : Env) (h : String) (hH : HOME env = h) (h0 : h ≠ "")
    (h1 : h.data.getLast? ≠ some '/') : CLAUDE_DIR env = h ++ "/.claude" := by
  unfold CLAUDE_DIR
  rw [hH]
  exact os_path_join2_home h ".claude" "/.claude" h0 h1 (by decide) (by decide)

theorem SUPER_MANAGER_DIR_eq (env : Env) (h : String) (hH : HOME env = h) (h0 : h ≠ "")
    (h1 : h.data.getLast? ≠ some '/') : SUPER_MANAGER_DIR env = h ++ "/.claude/super-manager" := by
  unfold SUPER_MANAGER_DIR
  rw [CLAUDE_DIR_eq env h hH h0 h1]
  exact os_path_join2_suffix h "/.claude" "super-manager" "/.claude/super-manager" (by decide) (by decide)
    (by decide) (by decide)

theorem REGISTRIES_DIR_eq (env : Env) (h : String) (hH : HOME env = h) (h0 : h ≠ "")
    (h1 : h.data.getLast? ≠ some '/') : REGISTRIES_DIR env = h ++ "/.claude/super-manager/registries" := by
  unfold REGISTRIES_DIR
  rw [SUPER_MANAGER_DIR_eq env h hH h0 h1]
  exact os_path_join2_suffix h "/.claude/super-manager" "registries" "/.claude/super-manager/registries" (by decide) (by decide)
    (by decide) (by decide)

theorem INSTRUCTIONS_BASE_eq (env : Env) (h : String) (hH : HOME env = h) (h0 : h ≠ "")
    (h1 : h.data.getLast? ≠ some '/') : INSTRUCTIONS_BASE env = h ++ "/.claude/instructions" := by
  unfold INSTRUCTIONS_BASE
  rw [CLAUDE_DIR_eq env h hH h0 h1]
  exact os_path_join2_suffix h "/.claude" "instructions" "/.claude/instructions" (by decide) (by decide)
    (by decide) (by decide)

theorem INSTRUCTIONS_BACKUP_DIR_eq (env : Env) (h : String) (hH : HOME env = h) (h0 : h ≠ "")
    (h1 : h.data.getLast? ≠ some '/') : INSTRUCTIONS_BACKUP_DIR env = h ++ "/.claude/instructions/backups" := by
  unfold INSTRUCTIONS_BACKUP_DIR
  rw [INSTRUCTIONS_BASE_eq env h hH h0 h1]
  exact os_path_join2_suffix h "/.claude/instructions" "backups" "/.claude/instructions/backups" (by decide) (by decide)
    (by decide) (by decide)

theorem INSTRUCTIONS_REPOS_DIR_eq (env : Env) (h : String) (hH : HOME env = h) (h0 : h ≠ "")
    (h1 : h.data.getLast? ≠ some '/') : INSTRUCTIONS_REPOS_DIR env = h ++ "/.claude/instructions/repos" := by
  unfold INSTRUCTIONS_REPOS_DIR
  rw [INSTRUCTIONS_BASE_eq env h hH h0 h1]
  exact os_path_join2_suffix h "/.claude/instructions" "repos" "/.claude/instructions/repos" (by decide) (by decide)
    (by decide) (by decide)

theorem INSTRUCTIONS_REPOS_CONFIG_eq (env : Env) (h : String) (hH : HOME env = h) (h0 : h ≠ "")
    (h1 : h.data.getLast? ≠ some '/') : INSTRUCTIONS_REPOS_CONFIG env = h ++ "/.claude/instructions/repos.json" := by
  unfold INSTRUCTIONS_REPOS_CONFIG
  rw [INSTRUCTIONS_BASE_eq env h hH h0 h1]
  exact os_path_join2_suffix h "/.claude/instructions" "repos.json" "/.claude/instructions/repos.json" (by decide) (by decide)
    (by decide) (by decide)

theorem LOGS_DIR_eq (env : Env) (h : String) (hH : HOME env = h) (h0 : h ≠ "")
    (h1 : h.data.getLast? ≠ some '/') : LOGS_DIR env = h ++ "/.claude/super-manager/logs" := by
  unfold LOGS_DIR
  rw [SUPER_MANAGER_DIR_eq env h hH h0 h1]
  exact os_path_join2_suffix h "/.claude/super-manager" "logs" "/.claude/super-manager/logs" (by decide) (by decide)
    (by decide) (by decide)

theorem REPORTS_DIR_eq (env : Env) (h : String) (hH : HOME env = h) (h0 : h ≠ "")
    (h1 : h.data.getLast? ≠ some '/') : REPORTS_DIR env = h ++ "/.claude/super-manager/reports" := by
  unfold REPORTS_DIR
  rw [SUPER_MANAGER_DIR_eq env h hH h0 h1]
  exact os_path_join2_suffix h "/.claude/super-manager" "reports" "/.claude/super-manager/reports" (by decide) (by decide)
    (by decide) (by decide)

theorem ARCHIVE_DIR_eq (env : Env) (h : String) (hH : HOME env = h) (h0 : h ≠ "")
    (h1 : h.data.getLast? ≠ some '/') : ARCHIVE_DIR env = h ++ "/.claude/super-manager/archive" := by
  unfold ARCHIVE_DIR
  rw [SUPER_MANAGER_DIR_eq env h hH h0 h1]
  exact os_path_join2_suffix h "/.claude/super-manager" "archive" "/.claude/super-manager/archive" (by decide) (by decide)
    (by decide) (by decide)

theorem TESTS_DIR_eq (env : Env) (h : String) (hH : HOME env = h) (h0 : h ≠ "")
    (h1 : h.data.getLast? ≠ some '/') : TESTS_DIR env = h ++ "/.claude/super-manager/tests" := by
  unfold TESTS_DIR
  rw [SUPER_MANAGER_DIR_eq env h hH h0 h1]
  exact os_path_join2_suffix h "/.claude/super-manager" "tests" "/.claude/super-manager/tests" (by decide) (by decide)
    (by decide) (by decide)

theorem CREDENTIALS_DIR_eq (env : Env) (h : String) (hH : HOME env = h) (h0 : h ≠ "")
    (h1 : h.data.getLast? ≠ some '/') : CREDENTIALS_DIR env = h ++ "/.claude/super-manager/credentials" := by
  unfold CREDENTIALS_DIR
  rw [SUPER_MANAGER_DIR_eq env h hH h0 h1]
  exact os_path_join2_suffix h "/.claude/super-manager" "credentials" "/.claude/super-manager/credentials" (by decide) (by decide)
    (by decide) (by decide)

theorem CONFIG_DIR_eq (env : Env) (h : String) (hH : HOME env = h) (h0 : h ≠ "")
    (h1 : h.data.getLast? ≠ some '/') : CONFIG_DIR env = h ++ "/.claude/super-manager/config" := by
  unfold CONFIG_DIR
  rw [SUPER_MANAGER_DIR_eq env h hH h0 h1]
  exact os_path_join2_suffix h "/.claude/super-manager" "config" "/.claude/super-manager/config" (by decide) (by decide)
    (by decide) (by decide)

theorem CONFIG_REPOS_DIR_eq (env : Env) (h : String) (hH : HOME env = h) (h0 : h ≠ "")
    (h1 : h.data.getLast? ≠ some '/') : CONFIG_REPOS_DIR env = h ++ "/.claude/super-manager/config/repos" := by
  unfold CONFIG_REPOS_DIR
  rw [CONFIG_DIR_eq env h hH h0 h1]
  exact os_path_join2_suffix h "/.claude/super-manager/config" "repos" "/.claude/super-manager/config/repos" (by decide) (by decide)
    (by decide) (by decide)

theorem CONFIG_BACKUPS_DIR_eq (env : Env) (h : String) (hH : HOME env = h) (h0 : h ≠ "")
    (h1 : h.data.getLast? ≠ some '/') : CONFIG_BACKUPS_DIR env = h ++ "/.claude/super-manager/config/backups" := by
  unfold CONFIG_BACKUPS_DIR
  rw [CONFIG_DIR_eq env h hH h0 h1]
  exact os_path_join2_suffix h "/.claude/super-manager/config" "backups" "/.claude/super-manager/config/backups" (by decide) (by decide)
    (by decide) (by decide)

theorem CONFIG_REPOS_JSON_eq (env : Env) (h : String) (hH : HOME env = h) (h0 : h ≠ "")
    (h1 : h.data.getLast? ≠ some '/') : CONFIG_REPOS_JSON env = h ++ "/.claude/super-manager/config/repos.json" := by
  unfold CONFIG_REPOS_JSON
  rw [CONFIG_DIR_eq env h hH h0 h1]
  exact os_path_join2_suffix h "/.claude/super-manager/config" "repos.json" "/.claude/super-manager/config/repos.json" (by decide) (by decide)
    (by decide) (by decide)

theorem CONFIG_INSTALLED_JSON_eq (env : Env) (h : String) (hH : HOME env = h) (h0 : h ≠ "")
    (h1 : h.data.getLast? ≠ some '/') : CONFIG_INSTALLED_JSON env = h ++ "/.claude/super-manager/config/installed.json" := by
  unfold CONFIG_INSTALLED_JSON
  rw [CONFIG_DIR_eq env h hH h0 h1]
  exact os_path_join2_suffix h "/.claude/super-manager/config" "installed.json" "/.claude/super-manager/config/installed.json" (by decide) (by decide)
    (by decide) (by decide)

theorem CONFIG_PENDING_JSON_eq (env : Env) (h : String) (hH : HOME env = h) (h0 : h ≠ "")
    (h1 : h.data.getLast? ≠ some '/') : CONFIG_PENDING_JSON env = h ++ "/.claude/super-manager/config/pending.json" := by
  unfold CONFIG_PENDING_JSON
  rw [CONFIG_DIR_eq env h hH h0 h1]
  exact os_path_join2_suffix h "/.claude/super-manager/config" "pending.json" "/.claude/super-manager/config/pending.json" (by decide) (by decide)
    (by decide) (by decide)

theorem HOOK_REGISTRY_eq (env : Env) (h : String) (hH : HOME env = h) (h0 : h ≠ "")
    (h1 : h.data.getLast? ≠ some '/') : HOOK_REGISTRY env = h ++ "/.claude/super-manager/registries/hook-registry.json" := by
  unfold HOOK_REGISTRY
  rw [REGISTRIES_DIR_eq env h hH h0 h1]
  exact os_path_join2_suffix h "/.claude/super-manager/registries" "hook-registry.json" "/.claude/super-manager/registries/hook-registry.json" (by decide) (by decide)
    (by decide) (by decide)

theorem SKILL_REGISTRY_eq (env : Env) (h : String) (hH : HOME env = h) (h0 : h ≠ "")
    (h1 : h.data.getLast? ≠ some '/') : SKILL_REGISTRY env = h ++ "/.claude/super-manager/registries/skill-registry.json" := by
  unfold SKILL_REGISTRY
  rw [REGISTRIES_DIR_eq env h hH h0 h1]
  exact os_path_join2_suffix h "/.claude/super-manager/registries" "skill-registry.json" "/.claude/super-manager/registries/skill-registry.json" (by decide) (by decide)
    (by decide) (by decide)

theorem CONFIG_HASH_FILE_eq (env : Env) (h : String) (hH : HOME env = h) (h0 : h ≠ "")
    (h1 : h.data.getLast? ≠ some '/') : CONFIG_HASH_FILE env = h ++ "/.claude/super-manager/registries/last-known-config-hash.txt" := by
  unfold CONFIG_HASH_FILE
  rw [REGISTRIES_DIR_eq env h hH h0 h1]
  exact os_path_join2_suffix h "/.claude/super-manager/registries" "last-known-config-hash.txt" "/.claude/super-manager/registries/last-known-config-hash.txt" (by decide) (by decide)
    (by decide) (by decide)

theorem CREDENTIAL_REGISTRY_eq (env : Env) (h : String) (hH : HOME env = h) (h0 : h ≠ "")
    (h1 : h.data.getLast? ≠ some '/') : CREDENTIAL_REGISTRY env = h ++ "/.claude/super-manager/credentials/credential-registry.json" := by
  unfold CREDENTIAL_REGISTRY
  rw [CREDENTIALS_DIR_eq env h hH h0 h1]
  exact os_path_join2_suffix h "/.claude/super-manager/credentials" "credential-registry.json" "/.claude/super-manager/credentials/credential-registry.json" (by decide) (by decide)
    (by decide) (by decide)

theorem CONFIG_REPORT_eq (env : Env) (h : String) (hH : HOME env = h) (h0 : h ≠ "")
    (h1 : h.data.getLast? ≠ some '/') : CONFIG_REPORT env = h ++ "/.claude/super-manager/reports/config-report.md" := by
  unfold CONFIG_REPORT
  rw [REPORTS_DIR_eq env h hH h0 h1]
  exact os_path_join2_suffix h "/.claude/super-manager/reports" "config-report.md" "/.claude/super-manager/reports/config-report.md" (by decide) (by decide)
    (by decide) (by decide)

theorem SETTINGS_JSON_eq (env : Env) (h : String) (hH : HOME env = h) (h0 : h ≠ "")
    (h1 : h.data.getLast? ≠ some '/') : SETTINGS_JSON env = h ++ "/.claude/settings.json" := by
  unfold SETTINGS_JSON
  rw [CLAUDE_DIR_eq env h hH h0 h1]
  exact os_path_join2_suffix h "/.claude" "settings.json" "/.claude/settings.json" (by decide) (by decide)
    (by decide) (by decide)

theorem HOOKS_DIR_eq (env : Env) (h : String) (hH : HOME env = h) (h0 : h ≠ "")
    (h1 : h.data.getLast? ≠ some '/') : HOOKS_DIR env = h ++ "/.claude/hooks" := by
  unfold HOOKS_DIR
  rw [CLAUDE_DIR_eq env h hH h0 h1]
  exact os_path_join2_suffix h "/.claude" "hooks" "/.claude/hooks" (by decide) (by decide)
    (by decide) (by decide)

theorem GLOBAL_SKILLS_DIR_eq (env : Env) (h : String) (hH : HOME env = h) (h0 : h ≠ "")
    (h1 : h.data.getLast? ≠ some '/') : GLOBAL_SKILLS_DIR env = h ++ "/.claude/skills" := by
  unfold GLOBAL_SKILLS_DIR
  rw [CLAUDE_DIR_eq env h hH h0 h1]
  exact os_path_join2_suffix h "/.claude" "skills" "/.claude/skills" (by decide) (by decide)
    (by decide) (by decide)

theorem INSTRUCTIONS_DIR_eq (env : Env) (h : String) (hH : HOME env = h) (h0 : h ≠ "")
    (h1 : h.data.getLast? ≠ some '/') : INSTRUCTIONS_DIR env = h ++ "/.claude/instructions" := by
  unfold INSTRUCTIONS_DIR
  exact INSTRUCTIONS_BASE_eq env h hH h0 h1

theorem SKILL_MGR_CLI_eq (env : Env) (h : String) (hH : HOME env = h) (h0 : h ≠ "")
    (h1 : h.data.getLast? ≠ some '/') :
    SKILL_MGR_CLI env = h ++ "/.claude/skills/skill-marketplace/cli/skill-mgr" := by
  unfold SKILL_MGR_CLI os_path_join
  simp only [List.foldl]
  rw [GLOBAL_SKILLS_DIR_eq env h hH h0 h1]
  rw [os_path_join2_suffix h "/.claude/skills" "skill-marketplace"
    "/.claude/skills/skill-marketplace" (by decide) (by decide) (by decide) (by decide)]
  rw [os_path_join2_suffix h "/.claude/skills/skill-marketplace" "cli"
    "/.claude/skills/skill-marketplace/cli" (by decide) (by decide) (by decide) (by decide)]
  exact os_path_join2_suffix h "/.claude/skills/skill-marketplace/cli" "skill-mgr"
    "/.claude/skills/skill-marketplace/cli/skill-mgr" (by decide) (by decide)
    (by decide) (by decide)

/-- C4 counterexample: with the primary home variable set to the empty
string and the fallback set to "/x", the base directory is "/x", not the
primary variable's value "". -/
theorem home_counterexample_empty_primary :
    env_empty_primary "HOME" = some "" ∧ HOME env_empty_primary = "/x" ∧
      HOME env_empty_primary ≠ "" := by
  refine ⟨rfl, rfl, ?_⟩
  decide

/-- C4 (amended): the base directory equals the primary variable's value
whenever the primary is set and non-empty; when the primary is absent or
set to the empty string the fallback variable (defaulting to "") is used. -/
theorem home_primary_then_fallback :
    (∀ (env : Env) (s : String), env "HOME" = some s → s ≠ "" → HOME env = s) ∧
    (∀ env : Env, (env "HOME" = none ∨ env "HOME" = some "") →
        HOME env = envGet env "USERPROFILE" "") := by
  constructor
  · intro env s hset h0
    unfold HOME
    rw [hset]
    exact if_neg h0
  · intro env hcase
    rcases hcase with hnone | hempty
    · unfold HOME
      rw [hnone]
    · unfold HOME
      rw [hempty]
      simp

/-- C4 witness: a set non-empty primary wins; an empty primary falls back. -/
theorem home_primary_then_fallback_witness :
    HOME (env_home "/h") = "/h" ∧
      HOME env_empty_primary = envGet env_empty_primary "USERPROFILE" "" :=
  ⟨home_primary_then_fallback.1 (env_home "/h") "/h" rfl (by decide),
   home_primary_then_fallback.2 env_empty_primary (Or.inr rfl)⟩

/-- C5 counterexample: no single fixed suffix makes the hooks path equal the
home value followed by that suffix for every home value; the claim fails at
the explicit input `H = ""` (against the suffix the claim's own `/u`
instance fixes). -/
theorem hooks_dir_no_fixed_suffix :
    ¬ ∃ suf : String, ∀ h : String, HOOKS_DIR (env_home h) = h ++ suf := by
  rintro ⟨suf, hall⟩
  have h2 := hall ""
  rw [show HOOKS_DIR (env_home "") = ".claude/hooks" from rfl,
      string_empty_append suf] at h2
  have h3 := hall "/u"
  rw [show HOOKS_DIR (env_home "/u") = "/u/.claude/hooks" from rfl, ← h2] at h3
  exact absurd h3 (by decide)

/-- C5 (amended): whenever the home variable is set to a non-empty value not
ending in the separator, every derived path equals that value followed by
its fixed literal suffix; in particular with home "/u" the hooks path is
"/u/.claude/hooks". -/
theorem derived_paths_home_prefix :
    (∀ (env : Env) (h : String), env "HOME" = some h → h ≠ "" →
        h.data.getLast? ≠ some '/' →
        derived_path_list env = derived_path_suffixes.map (fun s => h ++ s)) ∧
    HOOKS_DIR (env_home "/u") = "/u/.claude/hooks" := by
  constructor
  · intro env h hset h0 h1
    have hH : HOME env = h := home_of_set env h hset h0
    simp only [derived_path_list, derived_path_suffixes, List.map]
    rw [CLAUDE_DIR_eq env h hH h0 h1,
      SUPER_MANAGER_DIR_eq env h hH h0 h1,
      REGISTRIES_DIR_eq env h hH h0 h1,
      INSTRUCTIONS_BASE_eq env h hH h0 h1,
      INSTRUCTIONS_DIR_eq env h hH h0 h1,
      INSTRUCTIONS_BACKUP_DIR_eq env h hH h0 h1,
      INSTRUCTIONS_REPOS_DIR_eq env h hH h0 h1,
      INSTRUCTIONS_REPOS_CONFIG_eq env h hH h0 h1,
      LOGS_DIR_eq env h hH h0 h1,
      REPORTS_DIR_eq env h hH h0 h1,
      ARCHIVE_DIR_eq env h hH h0 h1,
      TESTS_DIR_eq env h hH h0 h1,
      CREDENTIALS_DIR_eq env h hH h0 h1,
      CONFIG_DIR_eq env h hH h0 h1,
      CONFIG_REPOS_DIR_eq env h hH h0 h1,
      CONFIG_BACKUPS_DIR_eq env h hH h0 h1,
      CONFIG_REPOS_JSON_eq env h hH h0 h1,
      CONFIG_INSTALLED_JSON_eq env h hH h0 h1,
      CONFIG_PENDING_JSON_eq env h hH h0 h1,
      HOOK_REGISTRY_eq env h hH h0 h1,
      SKILL_REGISTRY_eq env h hH h0 h1,
      CONFIG_HASH_FILE_eq env h hH h0 h1,
      CREDENTIAL_REGISTRY_eq env h hH h0 h1,
      CONFIG_REPORT_eq env h hH h0 h1,
      SETTINGS_JSON_eq env h hH h0 h1,
      HOOKS_DIR_eq env h hH h0 h1,
      GLOBAL_SKILLS_DIR_eq env h hH h0 h1,
      SKILL_MGR_CLI_eq env h hH h0 h1]
  · rfl

/-- C5 witness: at home "/u" every derived path is "/u" followed by its
suffix. -/
theorem derived_paths_home_prefix_witness :
    derived_path_list (env_home "/u") =
      derived_path_suffixes.map (fun s => "/u" ++ s) :=
  derived_paths_home_prefix.1 (env_home "/u") "/u" rfl (by decide) (by decide)

/-- C6: with neither home variable set, the base directory is the empty
string and every derived path is the bare relative suffix (no leading
separator); all path constants are total functions, so initialization
cannot raise. -/
theorem derived_paths_relative_when_no_home :
    ∀ env : Env, env "HOME" = none → env "USERPROFILE" = none →
      HOME env = "" ∧ derived_path_list env = derived_path_suffixes_relative ∧
      ∀ p ∈ derived_path_list env, p.data.head? ≠ some '/' := by
  intro env hA hB
  have hH : HOME env = "" := by
    unfold HOME
    rw [hA]
    unfold envGet
    rw [hB]
    rfl
  have hlist : derived_path_list env = derived_path_suffixes_relative := by
    simp only [derived_path_list, os_path_join, CLAUDE_DIR, SUPER_MANAGER_DIR, REGISTRIES_DIR, INSTRUCTIONS_BASE, INSTRUCTIONS_DIR, INSTRUCTIONS_BACKUP_DIR, INSTRUCTIONS_REPOS_DIR, INSTRUCTIONS_REPOS_CONFIG, LOGS_DIR, REPORTS_DIR, ARCHIVE_DIR, TESTS_DIR, CREDENTIALS_DIR, CONFIG_DIR, CONFIG_REPOS_DIR, CONFIG_BACKUPS_DIR, CONFIG_REPOS_JSON, CONFIG_INSTALLED_JSON, CONFIG_PENDING_JSON, HOOK_REGISTRY, SKILL_REGISTRY, CONFIG_HASH_FILE, CREDENTIAL_REGISTRY, CONFIG_REPORT, SETTINGS_JSON, HOOKS_DIR, GLOBAL_SKILLS_DIR, SKILL_MGR_CLI]
    rw [hH]
    decide
  refine ⟨hH, hlist, ?_⟩
  rw [hlist]
  decide

/-- C6 witness: the fully empty environment gives relative paths. -/
theorem derived_paths_relative_when_no_home_witness :
    HOME envNone = "" ∧
      derived_path_list envNone = derived_path_suffixes_relative ∧
      ∀ p ∈ derived_path_list envNone, p.data.head? ≠ some '/' :=
  derived_paths_relative_when_no_home envNone rfl rfl

/-- C9: module initialization is pure and deterministic: the constants it
computes depend only on the environment values, never on the filesystem
oracle, so two runs with extensionally equal environments produce identical
constants whatever the filesystem looks like. -/
theorem module_constants_pure :
    ∀ (fsA fsB : Fs) (envA envB : Env), (∀ n, envA n = envB n) →
      module_constants envA fsA = module_constants envB fsB := by
  intro fsA fsB envA envB henv
  have heq : envA = envB := funext henv
  subst heq
  rfl

/-- C9 witness: two runs over the same (empty) environment and two opposite
filesystem oracles agree. -/
theorem module_constants_pure_witness :
    module_constants envNone fs_nothing = module_constants envNone fs_only_b :=
  module_constants_pure fs_nothing fs_only_b envNone envNone (fun _ => rfl)

end ConfigurationPaths
